import Mathlib

/-!
Verification of `src/soundmixer.py` (SoundMixer).

Shallow embedding of the program's data model and operations:

* `ConfigManager` (lines 32-91): configuration document, built-in defaults,
  `load_config`, `get_hotkey`.
* `AudioController` (lines 93-201): cached (pid, session-handle) pair,
  session resolution, `get_volume` / `set_volume` / `toggle_mute`.
  The OS environment (foreground window, audio sessions, default endpoint)
  is modelled as an explicit `World`; OS-API failures are modelled as the
  states in which the corresponding call would raise
  (`foregroundPid = none`, `sessionsOk = false`, `endpointOk = false`,
  a dangling session handle).
* `SoundMixerApp.volume_up` / `volume_down` (lines 556-574): Python's
  `round(x, 2)` is modelled exactly on rationals as round-half-to-even at
  two decimal places.
* `VolumeOverlay` (lines 203-323): the single-shot auto-hide timer as a
  discrete-time transition system (one `tick` = one millisecond).
* Hotkey callbacks (lines 534-590): the dispatch mode (direct on the
  listener thread vs `QTimer.singleShot(0, ...)` deferral to the UI
  thread) of each side-effecting call, read off statically from the
  callback bodies.
-/

namespace SoundMixer

/-! ## Config Store (`ConfigManager`, soundmixer.py lines 32-91) -/

/-- A parsed configuration document: the `hotkeys` section maps an action
name to a list of key tokens, the `gui` section maps a setting name to a
number (opacity and timeout are both modelled as rationals). -/
structure Config where
  hotkeys : List (String × List String)
  gui : List (String × ℚ)
deriving DecidableEq

/-- `self.default_config` (lines 35-46). -/
def default_config : Config :=
  { hotkeys :=
      [ ("volume_up", ["ctrl", "alt", "up"])
      , ("volume_down", ["ctrl", "alt", "down"])
      , ("mute", ["ctrl", "alt", "m"])
      , ("switch_app", ["ctrl", "alt", "tab"]) ]
  , gui := [ ("opacity", 85/100), ("timeout", 2000) ] }

/-- The four recognized actions (the keys of the default `hotkeys` section,
also the keys of `HotkeyManager.callbacks`, lines 330-335). -/
def recognizedActions : List String :=
  ["volume_up", "volume_down", "mute", "switch_app"]

/-- The state of the configuration file on disk, as seen by `load_config`:
absent, present but failing `json.load` with a `JSONDecodeError`, present
but failing to read with some other exception, or present and parsing to a
document. -/
inductive FileState where
  | absent
  | invalidJson
  | unreadable
  | valid (doc : Config)
deriving DecidableEq

/-- `ConfigManager.load_config` (lines 50-64), together with the effect of
`create_default_config` (lines 66-72) on the file.  Returns the
configuration the manager keeps in memory and the resulting file state
(`create_default_config` writes the defaults; its own write failure is
caught and logged, the success case is modelled). -/
def load_config : FileState → Config × FileState
  | FileState.absent => (default_config, FileState.valid default_config)
  | FileState.invalidJson => (default_config, FileState.valid default_config)
  | FileState.unreadable => (default_config, FileState.unreadable)
  | FileState.valid doc => (doc, FileState.valid doc)

/-- `ConfigManager.get_hotkey` (lines 82-84):
`self.config["hotkeys"].get(action, [])`. -/
def get_hotkey (c : Config) (action : String) : List String :=
  (c.hotkeys.lookup action).getD []

/-- `ConfigManager.get_gui_setting` (lines 90-91): falls back to the
default per setting. -/
def get_gui_setting (c : Config) (setting : String) : Option ℚ :=
  match c.gui.lookup setting with
  | some v => some v
  | none => default_config.gui.lookup setting

/-! ## Audio Session Bridge (`AudioController`, soundmixer.py lines 93-201) -/

/-- `max(0.0, min(1.0, level))` as written in `set_volume` (lines 154, 157). -/
def clamp01 (x : ℚ) : ℚ := max 0 (min 1 x)

/-- One entry of `AudioUtilities.GetAllSessions()`: `hasProcess` models the
truthiness of `session.Process`, `pid` is `session.ProcessId`, and
`volume`/`muted` are the state behind its `SimpleAudioVolume` interface. -/
structure Session where
  hasProcess : Bool
  pid : Nat
  volume : ℚ
  muted : Bool
deriving DecidableEq

/-- The OS environment visible to the bridge.

* `foregroundPid = none` models `GetForegroundWindow` /
  `GetWindowThreadProcessId` raising (caught in `get_active_app_pid`,
  lines 130-138, which then returns `None`); `some 0` models the query
  succeeding with pid 0, which `if not pid` treats the same way.
* `sessionsOk = false` models `AudioUtilities.GetAllSessions()` raising
  (caught in `get_volume_control_for_app`, lines 126-128).
* `endpointOk = false` models the default-endpoint `ISimpleAudioVolume`
  calls raising (caught by the outer handlers of lines 158, 178, 200).
* A session call through a handle whose session no longer exists likewise
  raises and is caught by the same outer handlers. -/
structure World where
  foregroundPid : Option Nat
  sessionsOk : Bool
  sessions : List Session
  endpointOk : Bool
  endpointVolume : ℚ
  endpointMuted : Bool
deriving DecidableEq

/-- The mutable state of `AudioController` (lines 94-97):
`volume_interface` records whether `initialize_audio` succeeded (it is
`None` on failure, line 114); `current_volume_control` is the cached
session handle, modelled as the index of the resolved session in the
session list. -/
structure AudioController where
  volume_interface : Bool
  current_pid : Option Nat
  current_volume_control : Option Nat
deriving DecidableEq

/-- `get_active_app_pid` (lines 130-138) combined with the `if not pid`
checks at lines 144, 165, 186: a failed query and a falsy pid 0 both lead
to the early-out branch. -/
def activePid (w : World) : Option Nat :=
  match w.foregroundPid with
  | some 0 => none
  | x => x

/-- `get_volume_control_for_app` (lines 116-128): scan all sessions for the
first with a truthy `Process` and a matching `ProcessId`; return `None`
when none matches or when enumeration raises. -/
def get_volume_control_for_app (w : World) (pid : Nat) : Option Nat :=
  if w.sessionsOk then
    w.sessions.findIdx? (fun s => s.hasProcess && s.pid == pid)
  else none

/-- The shared cache step `if pid != self.current_pid: ...` (lines
149-151, 169-171, 190-192).  The boolean records whether a re-resolution
(session scan) happened. -/
def resolveIfChanged (w : World) (ctl : AudioController) (pid : Nat) :
    AudioController × Bool :=
  if some pid ≠ ctl.current_pid then
    ({ ctl with
        current_volume_control := get_volume_control_for_app w pid
        current_pid := some pid }, true)
  else (ctl, false)

/-- Reading `GetMasterVolume` through a cached handle: `none` when the
handle dangles (the COM call would raise). -/
def sessionVolume? (w : World) (h : Nat) : Option ℚ :=
  (w.sessions[h]?).map Session.volume

/-- `SetMasterVolume` through a cached handle; a dangling handle raises,
which the caller's `except` turns into a no-op. -/
def setSessionVolume (w : World) (h : Nat) (v : ℚ) : World :=
  match w.sessions[h]? with
  | some s => { w with sessions := w.sessions.set h { s with volume := v } }
  | none => w

/-- `GetMute`/`SetMute(not is_muted)` through a cached handle; a dangling
handle raises, which the caller's `except` turns into a no-op. -/
def toggleSessionMute (w : World) (h : Nat) : World :=
  match w.sessions[h]? with
  | some s => { w with sessions := w.sessions.set h { s with muted := !s.muted } }
  | none => w

/-- `self.volume_interface.GetMasterVolume()` (line 176): the default
endpoint's level, or — if the call raises, so the outer `except` of
`get_volume` fires — the safe default `0.5`. -/
def getEndpointVolume (w : World) : ℚ :=
  if w.endpointOk then w.endpointVolume else 1/2

/-- `self.volume_interface.SetMasterVolume(x, None)` (line 157): a raising
call is caught by the outer `except` of `set_volume`, making it a no-op. -/
def setEndpointVolume (w : World) (x : ℚ) : World :=
  if w.endpointOk then { w with endpointVolume := x } else w

/-- `self.volume_interface.GetMute()` / `SetMute(not is_muted, None)`
(lines 198-199): a raising call is caught by the outer `except` of
`toggle_mute`, making it a no-op. -/
def toggleEndpointMute (w : World) : World :=
  if w.endpointOk then { w with endpointMuted := !w.endpointMuted } else w

/-- `AudioController.get_volume` (lines 161-180).  Returns the value read,
the controller state after the call, and whether a session re-resolution
happened. -/
def get_volume (w : World) (ctl : AudioController) :
    ℚ × AudioController × Bool :=
  match activePid w with
  | none => (1/2, ctl, false)
  | some pid =>
    let r := resolveIfChanged w ctl pid
    match r.1.current_volume_control with
    | some h =>
      match sessionVolume? w h with
      | some v => (v, r.1, r.2)
      | none => (1/2, r.1, r.2)
    | none =>
      if r.1.volume_interface then (getEndpointVolume w, r.1, r.2)
      else (1/2, r.1, r.2)

/-- `AudioController.set_volume` (lines 140-159).  Returns the world after
the call, the controller state, and whether a session re-resolution
happened. -/
def set_volume (w : World) (ctl : AudioController) (level : ℚ) :
    World × AudioController × Bool :=
  match activePid w with
  | none => (w, ctl, false)
  | some pid =>
    let r := resolveIfChanged w ctl pid
    match r.1.current_volume_control with
    | some h => (setSessionVolume w h (clamp01 level), r.1, r.2)
    | none =>
      if r.1.volume_interface then (setEndpointVolume w (clamp01 level), r.1, r.2)
      else (w, r.1, r.2)

/-- `AudioController.toggle_mute` (lines 182-201). -/
def toggle_mute (w : World) (ctl : AudioController) :
    World × AudioController × Bool :=
  match activePid w with
  | none => (w, ctl, false)
  | some pid =>
    let r := resolveIfChanged w ctl pid
    match r.1.current_volume_control with
    | some h => (toggleSessionMute w h, r.1, r.2)
    | none =>
      if r.1.volume_interface then (toggleEndpointMute w, r.1, r.2)
      else (w, r.1, r.2)

/-! ## Application actions (`SoundMixerApp`, soundmixer.py lines 556-582) -/

/-- Round-half-to-even to an integer, Python's `round` on an exact value.
(Binary floating-point inputs are never exactly halfway at two decimal
places, so the tie rule is immaterial for the values the program sees; the
arithmetic is modelled exactly on rationals.) -/
def roundHalfEven (x : ℚ) : ℤ :=
  if x - ⌊x⌋ < 1/2 then ⌊x⌋
  else if 1/2 < x - ⌊x⌋ then ⌊x⌋ + 1
  else if ⌊x⌋ % 2 = 0 then ⌊x⌋ else ⌊x⌋ + 1

/-- Python's `round(x, 2)` (lines 560, 570). -/
def pyRound2 (x : ℚ) : ℚ := (roundHalfEven (100 * x) : ℚ) / 100

/-- `SoundMixerApp.volume_up` (lines 556-564):
`current = get_volume(); set_volume(min(1.0, round(current + 0.05, 2)))`.
The deferred overlay show does not touch the audio state and is modelled
separately (see `volume_up_calls`). -/
def volume_up (w : World) (ctl : AudioController) : World × AudioController :=
  let g := get_volume w ctl
  let s := set_volume w g.2.1 (min 1 (pyRound2 (g.1 + 1/20)))
  (s.1, s.2.1)

/-- `SoundMixerApp.volume_down` (lines 566-574):
`current = get_volume(); set_volume(max(0.0, round(current - 0.05, 2)))`. -/
def volume_down (w : World) (ctl : AudioController) : World × AudioController :=
  let g := get_volume w ctl
  let s := set_volume w g.2.1 (max 0 (pyRound2 (g.1 - 1/20)))
  (s.1, s.2.1)

/-- A sequence of hotkey volume actions: `true` = volume-up, `false` =
volume-down. -/
def runActions (acts : List Bool) (p : World × AudioController) :
    World × AudioController :=
  acts.foldl (fun q a => if a then volume_up q.1 q.2 else volume_down q.1 q.2) p

/-! ## Overlay Presenter (`VolumeOverlay`, soundmixer.py lines 203-323) -/

/-- The overlay's visibility state together with its single-shot auto-hide
timer (`hide_timer`, lines 211-213: `setSingleShot(True)`,
`timeout.connect(self.hide)`).  `timerRemaining = some t` means the timer
is active with `t` milliseconds left. -/
structure Overlay where
  visible : Bool
  timerRemaining : Option Nat
deriving DecidableEq

/-- `VolumeOverlay.show_overlay` (lines 313-323): resolve the timeout
(`None` means the configured `gui.timeout`), show the panel, stop the
running timer if active, and start it with the resolved timeout.  On the
single `hide_timer` object, stop-then-start is exactly a restart. -/
def show_overlay (cfgTimeout : Nat) (o : Overlay) (timeout : Option Nat) :
    Overlay :=
  let t := timeout.getD cfgTimeout
  { o with visible := true, timerRemaining := some t }

/-- One millisecond of time passing.  An active single-shot timer counts
down; when it expires it fires `hide` (line 212) exactly once and goes
inactive. -/
def tick (o : Overlay) : Overlay :=
  match o.timerRemaining with
  | none => o
  | some t =>
    if t ≤ 1 then { visible := false, timerRemaining := none }
    else { o with timerRemaining := some (t - 1) }

/-! ## Hotkey callback dispatch (soundmixer.py lines 534-590)

`HotkeyManager.start` (lines 361-373) runs `keyboard.wait()` on a
dedicated daemon thread; the `keyboard` library invokes registered
callbacks on its listener thread.  Each callback body is a sequence of
side-effecting calls; each call either executes directly on the listener
thread or is deferred to the Qt UI thread via `QTimer.singleShot(0, ...)`.
The lists below transcribe the call sequences of the callbacks as
registered in `SoundMixerApp.__init__` (lines 501-504) and
`add_test_hotkey` (lines 534-539). -/

/-- The side effects a hotkey callback performs. -/
inductive Effect where
  | audioGetVolume
  | audioSetVolume
  | audioToggleMute
  | overlayShow
  | sendAltTab
  | trayMessage
deriving DecidableEq

/-- How a call inside a callback reaches its effect: directly on the
listener thread, or deferred to the UI thread with
`QTimer.singleShot(0, ...)`. -/
inductive Dispatch where
  | direct
  | deferredZero
deriving DecidableEq

/-- One side-effecting call inside a callback body. -/
structure CallSite where
  dispatch : Dispatch
  effect : Effect
deriving DecidableEq

/-- `SoundMixerApp.volume_up` (lines 556-564): `self.audio.get_volume()`
and `self.audio.set_volume(...)` are called directly;
`QTimer.singleShot(0, self.safe_show_overlay)` defers the overlay show. -/
def volume_up_calls : List CallSite :=
  [ ⟨Dispatch.direct, Effect.audioGetVolume⟩
  , ⟨Dispatch.direct, Effect.audioSetVolume⟩
  , ⟨Dispatch.deferredZero, Effect.overlayShow⟩ ]

/-- `SoundMixerApp.volume_down` (lines 566-574). -/
def volume_down_calls : List CallSite :=
  [ ⟨Dispatch.direct, Effect.audioGetVolume⟩
  , ⟨Dispatch.direct, Effect.audioSetVolume⟩
  , ⟨Dispatch.deferredZero, Effect.overlayShow⟩ ]

/-- `SoundMixerApp.toggle_mute` (lines 576-582). -/
def toggle_mute_calls : List CallSite :=
  [ ⟨Dispatch.direct, Effect.audioToggleMute⟩
  , ⟨Dispatch.deferredZero, Effect.overlayShow⟩ ]

/-- `SoundMixerApp.switch_app` (lines 584-590): `pyautogui.hotkey` runs
directly; the overlay show is deferred. -/
def switch_app_calls : List CallSite :=
  [ ⟨Dispatch.direct, Effect.sendAltTab⟩
  , ⟨Dispatch.deferredZero, Effect.overlayShow⟩ ]

/-- The four action callbacks wired in `SoundMixerApp.__init__`
(lines 501-504). -/
def actionCallbacks : List (List CallSite) :=
  [volume_up_calls, volume_down_calls, toggle_mute_calls, switch_app_calls]

/-- Effects that are audio-session calls. -/
def isAudioCall : Effect → Bool
  | Effect.audioGetVolume => true
  | Effect.audioSetVolume => true
  | Effect.audioToggleMute => true
  | _ => false

/-- Effects that mutate Qt-owned UI state. -/
def isUiMutation : Effect → Bool
  | Effect.overlayShow => true
  | Effect.trayMessage => true
  | _ => false

/-- The bridge's cached handle points at session `i` for foreground pid
`p`, and `p` stays the foreground pid: the situation in which the cache is
reused without re-resolution. -/
def stableTarget (w : World) (c : AudioController) (p i : Nat) : Prop :=
  activePid w = some p ∧ c.current_pid = some p ∧
    c.current_volume_control = some i ∧ i < w.sessions.length

/-- Invariant carried through repeated hotkey volume actions: the cache
keeps pointing at session `i` and that session's stored level is in
`[0, 1]`. -/
def VolInv (p i : Nat) (q : World × AudioController) : Prop :=
  stableTarget q.1 q.2 p i ∧
    ∃ s, q.1.sessions[i]? = some s ∧ 0 ≤ s.volume ∧ s.volume ≤ 1

/-! ## Helper lemmas -/

theorem set_of_getElem_eq {α : Type _} (l : List α) :
    ∀ (i : Nat) (s : α), l[i]? = some s → l.set i s = l := by
  induction l with
  | nil => intro i s h; simp at h
  | cons a t ih =>
    intro i s h
    cases i with
    | zero => simp at h; simp [List.set, h]
    | succ j => simp at h; simp [List.set, ih j s h]

theorem clamp01_nonneg (x : ℚ) : 0 ≤ clamp01 x := le_max_left 0 _

theorem clamp01_le_one (x : ℚ) : clamp01 x ≤ 1 := by
  unfold clamp01
  rcases le_total 0 (min 1 x) with h | h
  · rw [max_eq_right h]; exact min_le_left 1 x
  · rw [max_eq_left h]; exact zero_le_one

theorem clamp01_of_mem (x : ℚ) (h0 : 0 ≤ x) (h1 : x ≤ 1) : clamp01 x = x := by
  unfold clamp01
  rw [min_eq_right h1, max_eq_right h0]

theorem clamp01_idem (x : ℚ) : clamp01 (clamp01 x) = clamp01 x :=
  clamp01_of_mem _ (clamp01_nonneg x) (clamp01_le_one x)

theorem roundHalfEven_intCast (n : ℤ) : roundHalfEven (n : ℚ) = n := by
  unfold roundHalfEven
  rw [Int.floor_intCast]
  norm_num

theorem pyRound2_intCast_div (k : ℤ) : pyRound2 ((k : ℚ) / 100) = (k : ℚ) / 100 := by
  unfold pyRound2
  rw [show (100 : ℚ) * ((k : ℚ) / 100) = (k : ℚ) by ring, roundHalfEven_intCast]

theorem resolveIfChanged_same (w : World) (ctl : AudioController) (pid : Nat)
    (h : ctl.current_pid = some pid) : resolveIfChanged w ctl pid = (ctl, false) := by
  simp [resolveIfChanged, h]

theorem resolveIfChanged_diff (w : World) (ctl : AudioController) (pid : Nat)
    (h : ctl.current_pid ≠ some pid) :
    resolveIfChanged w ctl pid =
      ({ ctl with
          current_volume_control := get_volume_control_for_app w pid
          current_pid := some pid }, true) := by
  simp [resolveIfChanged, Ne.symm h]

theorem get_volume_stable {w : World} {c : AudioController} {p i : Nat} {s : Session}
    (h : stableTarget w c p i) (hs : w.sessions[i]? = some s) :
    get_volume w c = (s.volume, c, false) := by
  obtain ⟨h1, h2, h3, _⟩ := h
  simp [get_volume, h1, resolveIfChanged_same w c p h2, h3, sessionVolume?, hs]

theorem set_volume_stable {w : World} {c : AudioController} {p i : Nat}
    (h : stableTarget w c p i) (v : ℚ) :
    set_volume w c v = (setSessionVolume w i (clamp01 v), c, false) := by
  obtain ⟨h1, h2, h3, _⟩ := h
  simp [set_volume, h1, resolveIfChanged_same w c p h2, h3]

theorem volume_up_stable {w : World} {c : AudioController} {p i : Nat} {s : Session}
    (h : stableTarget w c p i) (hs : w.sessions[i]? = some s) :
    volume_up w c =
      (setSessionVolume w i (clamp01 (min 1 (pyRound2 (s.volume + 1/20)))), c) := by
  simp [volume_up, get_volume_stable h hs, set_volume_stable h]

theorem volume_down_stable {w : World} {c : AudioController} {p i : Nat} {s : Session}
    (h : stableTarget w c p i) (hs : w.sessions[i]? = some s) :
    volume_down w c =
      (setSessionVolume w i (clamp01 (max 0 (pyRound2 (s.volume - 1/20)))), c) := by
  simp [volume_down, get_volume_stable h hs, set_volume_stable h]

theorem setSessionVolume_getElem {w : World} {i : Nat} {s : Session} (v : ℚ)
    (hs : w.sessions[i]? = some s) :
    (setSessionVolume w i v).sessions[i]? = some { s with volume := v } := by
  have hlen : i < w.sessions.length := by
    rcases List.getElem?_eq_some_iff.mp hs with ⟨hl, _⟩
    exact hl
  simp [setSessionVolume, hs, List.getElem?_set_eq_of_lt _ hlen]

theorem setSessionVolume_length (w : World) (i : Nat) (v : ℚ) :
    (setSessionVolume w i v).sessions.length = w.sessions.length := by
  unfold setSessionVolume
  cases h : w.sessions[i]? <;> simp

theorem setSessionVolume_foregroundPid (w : World) (i : Nat) (v : ℚ) :
    (setSessionVolume w i v).foregroundPid = w.foregroundPid := by
  unfold setSessionVolume
  cases h : w.sessions[i]? <;> simp

theorem activePid_setSessionVolume (w : World) (i : Nat) (v : ℚ) :
    activePid (setSessionVolume w i v) = activePid w := by
  unfold activePid
  rw [setSessionVolume_foregroundPid]

theorem toggleSessionMute_involutive (w : World) (i : Nat) :
    toggleSessionMute (toggleSessionMute w i) i = w := by
  unfold toggleSessionMute
  cases h : w.sessions[i]? with
  | none => simp [h]
  | some s =>
    have hlen : i < w.sessions.length := by
      rcases List.getElem?_eq_some_iff.mp h with ⟨hl, _⟩
      exact hl
    simp [List.getElem?_set_eq_of_lt _ hlen, List.set_set, Bool.not_not,
      set_of_getElem_eq _ _ _ h]

theorem stableTarget_setSessionVolume {w : World} {c : AudioController} {p i : Nat}
    (h : stableTarget w c p i) (v : ℚ) :
    stableTarget (setSessionVolume w i v) c p i := by
  obtain ⟨a1, a2, a3, a4⟩ := h
  exact ⟨by rw [activePid_setSessionVolume]; exact a1, a2, a3,
    by rw [setSessionVolume_length]; exact a4⟩

theorem volume_up_inv {p i : Nat} {q : World × AudioController}
    (h : VolInv p i q) : VolInv p i (volume_up q.1 q.2) := by
  obtain ⟨hst, s, hs, _, _⟩ := h
  rw [volume_up_stable hst hs]
  exact ⟨stableTarget_setSessionVolume hst _,
    _, setSessionVolume_getElem _ hs, clamp01_nonneg _, clamp01_le_one _⟩

theorem volume_down_inv {p i : Nat} {q : World × AudioController}
    (h : VolInv p i q) : VolInv p i (volume_down q.1 q.2) := by
  obtain ⟨hst, s, hs, _, _⟩ := h
  rw [volume_down_stable hst hs]
  exact ⟨stableTarget_setSessionVolume hst _,
    _, setSessionVolume_getElem _ hs, clamp01_nonneg _, clamp01_le_one _⟩

theorem runActions_inv {p i : Nat} (acts : List Bool) {q : World × AudioController}
    (h : VolInv p i q) : VolInv p i (runActions acts q) := by
  induction acts generalizing q with
  | nil => simpa [runActions] using h
  | cons a t ih =>
    have h1 : VolInv p i (if a then volume_up q.1 q.2 else volume_down q.1 q.2) := by
      cases a
      · exact volume_down_inv h
      · exact volume_up_inv h
    have h2 : runActions (a :: t) q =
        runActions t (if a then volume_up q.1 q.2 else volume_down q.1 q.2) := by
      simp [runActions]
    rw [h2]
    exact ih h1

theorem pyRound2_add_twodec (k : ℤ) :
    pyRound2 ((k : ℚ)/100 + 1/20) = (k : ℚ)/100 + 1/20 := by
  have h : (k : ℚ)/100 + 1/20 = ((k + 5 : ℤ) : ℚ)/100 := by push_cast; ring
  rw [h, pyRound2_intCast_div]

theorem pyRound2_sub_twodec (k : ℤ) :
    pyRound2 ((k : ℚ)/100 - 1/20) = (k : ℚ)/100 - 1/20 := by
  have h : (k : ℚ)/100 - 1/20 = ((k - 5 : ℤ) : ℚ)/100 := by push_cast; ring
  rw [h, pyRound2_intCast_div]

theorem resolveIfChanged_fst_pid (w : World) (c : AudioController) (pid : Nat) :
    (resolveIfChanged w c pid).1.current_pid = some pid := by
  unfold resolveIfChanged
  by_cases h : some pid ≠ c.current_pid
  · simp [h]
  · push_neg at h
    simp [h.symm]

theorem resolveIfChanged_fst_interface (w : World) (c : AudioController) (pid : Nat) :
    (resolveIfChanged w c pid).1.volume_interface = c.volume_interface := by
  unfold resolveIfChanged
  by_cases h : some pid ≠ c.current_pid <;> simp [h]

theorem toggleSessionMute_foregroundPid (w : World) (i : Nat) :
    (toggleSessionMute w i).foregroundPid = w.foregroundPid := by
  unfold toggleSessionMute
  cases h : w.sessions[i]? <;> simp

theorem activePid_toggleSessionMute (w : World) (i : Nat) :
    activePid (toggleSessionMute w i) = activePid w := by
  unfold activePid
  rw [toggleSessionMute_foregroundPid]

theorem activePid_toggleEndpointMute (w : World) :
    activePid (toggleEndpointMute w) = activePid w := by
  unfold activePid toggleEndpointMute
  by_cases h : w.endpointOk <;> simp [h]

theorem toggleEndpointMute_involutive (w : World) :
    toggleEndpointMute (toggleEndpointMute w) = w := by
  cases w with
  | mk f so ss eo ev em =>
    unfold toggleEndpointMute
    cases eo <;> simp

theorem activePid_setEndpointVolume (w : World) (x : ℚ) :
    activePid (setEndpointVolume w x) = activePid w := by
  unfold setEndpointVolume activePid
  by_cases h : w.endpointOk <;> simp [h]

theorem setEndpointVolume_endpointOk (w : World) (x : ℚ) :
    (setEndpointVolume w x).endpointOk = w.endpointOk := by
  unfold setEndpointVolume
  by_cases h : w.endpointOk <;> simp [h]

theorem getEndpointVolume_setEndpointVolume {w : World} (x : ℚ)
    (h : w.endpointOk = true) :
    getEndpointVolume (setEndpointVolume w x) = x := by
  simp [getEndpointVolume, setEndpointVolume, h]

theorem get_volume_none {w : World} (c : AudioController) (h : activePid w = none) :
    get_volume w c = (1/2, c, false) := by
  simp [get_volume, h]

theorem set_volume_none {w : World} (c : AudioController) (v : ℚ)
    (h : activePid w = none) : set_volume w c v = (w, c, false) := by
  simp [set_volume, h]

theorem toggle_mute_none {w : World} (c : AudioController) (h : activePid w = none) :
    toggle_mute w c = (w, c, false) := by
  simp [toggle_mute, h]

theorem get_volume_snd (c : AudioController) {w : World} {p : Nat}
    (h : activePid w = some p) :
    (get_volume w c).2 = resolveIfChanged w c p := by
  simp only [get_volume, h]
  cases hc : (resolveIfChanged w c p).1.current_volume_control with
  | some i => cases hs : sessionVolume? w i <;> simp [hc, hs]
  | none =>
    by_cases hv : (resolveIfChanged w c p).1.volume_interface <;> simp [hc, hv]

theorem get_volume_fst (c : AudioController) {w : World} {p : Nat}
    (h : activePid w = some p) :
    (get_volume w c).1 =
      (match (resolveIfChanged w c p).1.current_volume_control with
        | some i => (sessionVolume? w i).getD (1/2)
        | none =>
          if (resolveIfChanged w c p).1.volume_interface then getEndpointVolume w
          else 1/2) := by
  simp only [get_volume, h]
  cases hc : (resolveIfChanged w c p).1.current_volume_control with
  | some i => cases hs : sessionVolume? w i <;> simp [hc, hs]
  | none =>
    by_cases hv : (resolveIfChanged w c p).1.volume_interface <;> simp [hc, hv]

theorem set_volume_snd (c : AudioController) (v : ℚ) {w : World} {p : Nat}
    (h : activePid w = some p) :
    (set_volume w c v).2 = resolveIfChanged w c p := by
  simp only [set_volume, h]
  cases hc : (resolveIfChanged w c p).1.current_volume_control with
  | some i => simp [hc]
  | none =>
    by_cases hv : (resolveIfChanged w c p).1.volume_interface <;> simp [hc, hv]

theorem set_volume_fst (c : AudioController) (v : ℚ) {w : World} {p : Nat}
    (h : activePid w = some p) :
    (set_volume w c v).1 =
      (match (resolveIfChanged w c p).1.current_volume_control with
        | some i => setSessionVolume w i (clamp01 v)
        | none =>
          if (resolveIfChanged w c p).1.volume_interface then
            setEndpointVolume w (clamp01 v)
          else w) := by
  simp only [set_volume, h]
  cases hc : (resolveIfChanged w c p).1.current_volume_control with
  | some i => simp [hc]
  | none =>
    by_cases hv : (resolveIfChanged w c p).1.volume_interface <;> simp [hc, hv]

theorem toggle_mute_snd (c : AudioController) {w : World} {p : Nat}
    (h : activePid w = some p) :
    (toggle_mute w c).2 = resolveIfChanged w c p := by
  simp only [toggle_mute, h]
  cases hc : (resolveIfChanged w c p).1.current_volume_control with
  | some i => simp [hc]
  | none =>
    by_cases hv : (resolveIfChanged w c p).1.volume_interface <;> simp [hc, hv]

theorem toggle_mute_fst {w : World} {p : Nat} (c : AudioController)
    (h : activePid w = some p) :
    (toggle_mute w c).1 =
      (match (resolveIfChanged w c p).1.current_volume_control with
        | some i => toggleSessionMute w i
        | none =>
          if (resolveIfChanged w c p).1.volume_interface then toggleEndpointMute w
          else w) := by
  simp only [toggle_mute, h]
  cases hc : (resolveIfChanged w c p).1.current_volume_control with
  | some i => simp [hc]
  | none =>
    by_cases hv : (resolveIfChanged w c p).1.volume_interface <;> simp [hc, hv]

theorem get_volume_endpoint {w : World} {c : AudioController} {p : Nat}
    (hap : activePid w = some p) (hpid : c.current_pid = some p)
    (hc : c.current_volume_control = none) (hv : c.volume_interface = true) :
    get_volume w c = (getEndpointVolume w, c, false) := by
  simp [get_volume, hap, resolveIfChanged_same w c p hpid, hc, hv]

theorem set_volume_endpoint {w : World} {c : AudioController} {p : Nat} (v : ℚ)
    (hap : activePid w = some p) (hpid : c.current_pid = some p)
    (hc : c.current_volume_control = none) (hv : c.volume_interface = true) :
    set_volume w c v = (setEndpointVolume w (clamp01 v), c, false) := by
  simp [set_volume, hap, resolveIfChanged_same w c p hpid, hc, hv]

theorem toggle_mute_endpoint {w : World} {c : AudioController} {p : Nat}
    (hap : activePid w = some p) (hpid : c.current_pid = some p)
    (hc : c.current_volume_control = none) (hv : c.volume_interface = true) :
    toggle_mute w c = (toggleEndpointMute w, c, false) := by
  simp [toggle_mute, hap, resolveIfChanged_same w c p hpid, hc, hv]

theorem tick_iterate_lt {k T : Nat} (h : k < T) :
    tick^[k] (Overlay.mk true (some T)) = ⟨true, some (T - k)⟩ := by
  induction k with
  | zero => simp
  | succ n ih =>
    rw [Function.iterate_succ_apply', ih (Nat.lt_of_succ_lt h)]
    have h2 : ¬(T - n ≤ 1) := by omega
    have h3 : T - n - 1 = T - (n + 1) := by omega
    simp [tick, h2, h3]

/-! ## Claims -/

/-- C1, counterexample: with a configuration file holding only a `mute`
binding, `get_hotkey "volume_up"` returns `[]`, not the built-in default
`["ctrl", "alt", "up"]` claimed by the spec. -/
theorem c1_counterexample :
    get_hotkey (load_config (FileState.valid
        ⟨[("mute", ["ctrl", "alt", "m"])], []⟩)).1 "volume_up" = [] ∧
    get_hotkey (load_config (FileState.valid
        ⟨[("mute", ["ctrl", "alt", "m"])], []⟩)).1 "volume_up"
      ≠ ["ctrl", "alt", "up"] := by
  constructor <;> decide

/-- C1 (amended): for a loaded configuration file that parses, reading the
binding of a recognized action absent from the file returns the empty list
`[]` — there is no per-action fallback to the built-in defaults, so such
an action has no binding at all (and `HotkeyManager.load_hotkeys` skips
registering it). -/
theorem c1_get_hotkey_absent (doc : Config) (a : String)
    (_ha : a ∈ recognizedActions)
    (habs : doc.hotkeys.lookup a = none) :
    get_hotkey (load_config (FileState.valid doc)).1 a = [] := by
  simp [load_config, get_hotkey, habs]

/-- C1 witness: the amended theorem at the claim's own example. -/
theorem c1_witness :
    ("volume_up" ∈ recognizedActions ∧
      (Config.mk [("mute", ["ctrl", "alt", "m"])] []).hotkeys.lookup "volume_up"
        = none) ∧
    get_hotkey (load_config (FileState.valid
        ⟨[("mute", ["ctrl", "alt", "m"])], []⟩)).1 "volume_up" = [] :=
  ⟨⟨by decide, by decide⟩,
    c1_get_hotkey_absent ⟨[("mute", ["ctrl", "alt", "m"])], []⟩ "volume_up"
      (by decide) (by decide)⟩

/-- C5: if the configuration file exists but fails to parse, `load_config`
returns the complete built-in default configuration and the file is
rewritten with those defaults; in the defaults every recognized action has
a (nonempty) binding. -/
theorem c5_load_config_invalid_json :
    load_config FileState.invalidJson = (default_config, FileState.valid default_config) ∧
    recognizedActions.all (fun a => !(get_hotkey default_config a).isEmpty) = true :=
  ⟨rfl, by decide⟩

/-- C2, counterexample: starting from stored level `0.123`, one volume-up
leaves the stored level at `0.17` — the code rounds `current + 0.05` to
two decimal places (`round(current + 0.05, 2)`, line 560) — whereas the
claim demands exactly `0.123 + 0.05 = 0.173`. -/
theorem c2_counterexample :
    (volume_up ⟨some 5, true, [⟨true, 5, 123/1000, false⟩], true, 1/2, false⟩
        ⟨true, some 5, some 0⟩).1.sessions.map Session.volume = [17/100] ∧
    (17/100 : ℚ) ≠ min 1 (123/1000 + 1/20) := by
  constructor
  · have hst : stableTarget ⟨some 5, true, [⟨true, 5, 123/1000, false⟩], true, 1/2, false⟩
        ⟨true, some 5, some 0⟩ 5 0 := ⟨rfl, rfl, rfl, by simp⟩
    have hs : (World.mk (some 5) true [⟨true, 5, 123/1000, false⟩] true (1/2) false).sessions[0]?
        = some ⟨true, 5, 123/1000, false⟩ := rfl
    rw [volume_up_stable hst hs]
    have e : pyRound2 (123/1000 + 1/20) = 17/100 := by
      norm_num [pyRound2, roundHalfEven]
    simp only [e]
    have e2 : clamp01 (min 1 (17/100 : ℚ)) = 17/100 := by
      rw [clamp01_of_mem] <;> norm_num
    rw [e2]
    simp [setSessionVolume]
  · rw [min_eq_right (by norm_num : (123/1000 + 1/20 : ℚ) ≤ 1)]
    norm_num

/-- C2 (amended): when the stored level `v` of the targeted session is a
two-decimal value in `[0, 1]`, one volume-up stores exactly
`min 1 (v + 0.05)` and one volume-down exactly `max 0 (v - 0.05)` (for
other `v` the sum is first rounded to two decimal places by
`round(·, 2)`); and under any sequence of volume-up/volume-down hotkey
actions the stored level stays within `[0, 1]`. -/
theorem c2_volume_step (w : World) (c : AudioController) (p i : Nat) (s : Session) (k : ℤ)
    (hst : stableTarget w c p i) (hs : w.sessions[i]? = some s)
    (hv : s.volume = (k : ℚ) / 100) (h0 : 0 ≤ s.volume) (h1 : s.volume ≤ 1) :
    (volume_up w c).1.sessions[i]? = some { s with volume := min 1 (s.volume + 1/20) } ∧
    (volume_down w c).1.sessions[i]? = some { s with volume := max 0 (s.volume - 1/20) } ∧
    ∀ acts : List Bool, ∃ s', (runActions acts (w, c)).1.sessions[i]? = some s' ∧
      0 ≤ s'.volume ∧ s'.volume ≤ 1 := by
  refine ⟨?_, ?_, ?_⟩
  · rw [volume_up_stable hst hs]
    have e1 : pyRound2 (s.volume + 1/20) = s.volume + 1/20 := by
      rw [hv]; exact pyRound2_add_twodec k
    have e2 : clamp01 (min 1 (s.volume + 1/20)) = min 1 (s.volume + 1/20) :=
      clamp01_of_mem _ (le_min zero_le_one (by linarith)) (min_le_left _ _)
    rw [e1, e2]
    exact setSessionVolume_getElem _ hs
  · rw [volume_down_stable hst hs]
    have e1 : pyRound2 (s.volume - 1/20) = s.volume - 1/20 := by
      rw [hv]; exact pyRound2_sub_twodec k
    have e2 : clamp01 (max 0 (s.volume - 1/20)) = max 0 (s.volume - 1/20) :=
      clamp01_of_mem _ (le_max_left _ _) (max_le zero_le_one (by linarith))
    rw [e1, e2]
    exact setSessionVolume_getElem _ hs
  · intro acts
    have h := runActions_inv acts (q := (w, c)) ⟨hst, s, hs, h0, h1⟩
    exact h.2

/-- C3: with a determinable foreground pid, each of the three bridge
operations re-resolves the session handle (scans the sessions) exactly
when the pid differs from the cached one — the new handle is the scan's
result, the flag records that a scan happened — and reuses the cached
controller state untouched (no scan) when the pid is unchanged; when a
re-resolution matches no session and the endpoint interface exists, the
read falls back to the system default endpoint. -/
theorem c3_reresolve (w : World) (c : AudioController) (p : Nat) (v : ℚ)
    (hap : activePid w = some p) :
    (c.current_pid ≠ some p →
      ((get_volume w c).2.2 = true ∧
        (get_volume w c).2.1.current_volume_control = get_volume_control_for_app w p) ∧
      ((set_volume w c v).2.2 = true ∧
        (set_volume w c v).2.1.current_volume_control = get_volume_control_for_app w p) ∧
      ((toggle_mute w c).2.2 = true ∧
        (toggle_mute w c).2.1.current_volume_control = get_volume_control_for_app w p)) ∧
    (c.current_pid = some p →
      (get_volume w c).2 = (c, false) ∧
      (set_volume w c v).2 = (c, false) ∧
      (toggle_mute w c).2 = (c, false)) ∧
    (c.current_pid ≠ some p → get_volume_control_for_app w p = none →
      c.volume_interface = true → (get_volume w c).1 = getEndpointVolume w) := by
  refine ⟨fun hne => ?_, fun heq => ?_, fun hne hres hint => ?_⟩
  · have hr := resolveIfChanged_diff w c p hne
    refine ⟨?_, ?_, ?_⟩
    · rw [get_volume_snd c hap, hr]; exact ⟨rfl, rfl⟩
    · rw [set_volume_snd c v hap, hr]; exact ⟨rfl, rfl⟩
    · rw [toggle_mute_snd c hap, hr]; exact ⟨rfl, rfl⟩
  · have hr := resolveIfChanged_same w c p heq
    exact ⟨by rw [get_volume_snd c hap, hr],
      by rw [set_volume_snd c v hap, hr],
      by rw [toggle_mute_snd c hap, hr]⟩
  · have hr := resolveIfChanged_diff w c p hne
    rw [get_volume_fst c hap, hr]
    simp [hres, hint]

/-- C3 witness: a controller with an empty cache queried while pid 7 is
foreground re-resolves and caches the handle the session scan returns. -/
theorem c3_witness :
    activePid ⟨some 7, true, [⟨true, 7, 1/4, false⟩], true, 3/5, false⟩ = some 7 ∧
    (AudioController.mk true none none).current_pid ≠ some 7 ∧
    (get_volume ⟨some 7, true, [⟨true, 7, 1/4, false⟩], true, 3/5, false⟩
        ⟨true, none, none⟩).2.2 = true ∧
    (get_volume ⟨some 7, true, [⟨true, 7, 1/4, false⟩], true, 3/5, false⟩
        ⟨true, none, none⟩).2.1.current_volume_control
      = get_volume_control_for_app
          ⟨some 7, true, [⟨true, 7, 1/4, false⟩], true, 3/5, false⟩ 7 := by
  have h := c3_reresolve ⟨some 7, true, [⟨true, 7, 1/4, false⟩], true, 3/5, false⟩
    ⟨true, none, none⟩ 7 0 rfl
  have h1 := h.1 (by decide)
  exact ⟨rfl, by decide, h1.1.1, h1.1.2⟩

/-- C4: while the foreground pid matches the cache and the cached target
works (a live per-process session, or the default endpoint), setting any
level `v` — in or out of `[0, 1]` — and reading back yields
`clamp01 v = max 0 (min 1 v)`, and setting the already-clamped value again
still reads back `clamp01 v` (idempotent clamping). -/
theorem c4_set_get_clamp (w : World) (c : AudioController) (p : Nat) (v : ℚ)
    (hap : activePid w = some p) (hpid : c.current_pid = some p)
    (htgt : (∃ i, c.current_volume_control = some i ∧ i < w.sessions.length) ∨
      (c.current_volume_control = none ∧ c.volume_interface = true ∧
        w.endpointOk = true)) :
    (get_volume (set_volume w c v).1 (set_volume w c v).2.1).1 = clamp01 v ∧
    (get_volume
        (set_volume (set_volume w c v).1 (set_volume w c v).2.1 (clamp01 v)).1
        (set_volume (set_volume w c v).1 (set_volume w c v).2.1 (clamp01 v)).2.1).1
      = clamp01 v := by
  rcases htgt with ⟨i, hi, hlen⟩ | ⟨hc, hv, he⟩
  · have hst : stableTarget w c p i := ⟨hap, hpid, hi, hlen⟩
    have hs : w.sessions[i]? = some w.sessions[i] := List.getElem?_eq_getElem hlen
    rw [set_volume_stable hst v]
    have hst1 : stableTarget (setSessionVolume w i (clamp01 v)) c p i :=
      stableTarget_setSessionVolume hst _
    have hs1 := setSessionVolume_getElem (clamp01 v) hs
    constructor
    · rw [get_volume_stable hst1 hs1]
    · rw [set_volume_stable hst1 (clamp01 v)]
      have hst2 : stableTarget
          (setSessionVolume (setSessionVolume w i (clamp01 v)) i (clamp01 (clamp01 v)))
          c p i := stableTarget_setSessionVolume hst1 _
      have hs2 := setSessionVolume_getElem (clamp01 (clamp01 v)) hs1
      rw [get_volume_stable hst2 hs2]
      simp [clamp01_idem]
  · rw [set_volume_endpoint v hap hpid hc hv]
    have hap1 : activePid (setEndpointVolume w (clamp01 v)) = some p := by
      rw [activePid_setEndpointVolume, hap]
    have he1 : (setEndpointVolume w (clamp01 v)).endpointOk = true := by
      rw [setEndpointVolume_endpointOk, he]
    constructor
    · rw [get_volume_endpoint hap1 hpid hc hv,
        getEndpointVolume_setEndpointVolume _ he]
    · rw [set_volume_endpoint (clamp01 v) hap1 hpid hc hv]
      have hap2 : activePid (setEndpointVolume (setEndpointVolume w (clamp01 v))
          (clamp01 (clamp01 v))) = some p := by
        rw [activePid_setEndpointVolume, hap1]
      rw [get_volume_endpoint hap2 hpid hc hv,
        getEndpointVolume_setEndpointVolume _ he1]
      exact clamp01_idem v

/-- C4 witness: setting the out-of-range level 2 on a live session reads
back `clamp01 2`, which evaluates to 1. -/
theorem c4_witness :
    (activePid ⟨some 7, true, [⟨true, 7, 1/4, false⟩], true, 3/5, false⟩ = some 7 ∧
      (AudioController.mk true (some 7) (some 0)).current_pid = some 7 ∧
      (AudioController.mk true (some 7) (some 0)).current_volume_control = some 0 ∧
      (0 : Nat) < (World.mk (some 7) true [⟨true, 7, 1/4, false⟩] true (3/5)
        false).sessions.length) ∧
    (get_volume
        (set_volume ⟨some 7, true, [⟨true, 7, 1/4, false⟩], true, 3/5, false⟩
          ⟨true, some 7, some 0⟩ 2).1
        (set_volume ⟨some 7, true, [⟨true, 7, 1/4, false⟩], true, 3/5, false⟩
          ⟨true, some 7, some 0⟩ 2).2.1).1 = clamp01 2 ∧
    clamp01 2 = 1 := by
  have h := c4_set_get_clamp ⟨some 7, true, [⟨true, 7, 1/4, false⟩], true, 3/5, false⟩
    ⟨true, some 7, some 0⟩ 7 2 rfl rfl (Or.inl ⟨0, rfl, by simp⟩)
  refine ⟨⟨rfl, rfl, rfl, by simp⟩, h.1, ?_⟩
  show max 0 (min 1 (2 : ℚ)) = 1
  rw [min_eq_left (by norm_num : (1 : ℚ) ≤ 2),
    max_eq_right (by norm_num : (0 : ℚ) ≤ 1)]

/-- C6, counterexample: when session enumeration fails
(`GetAllSessions` raises) but the default endpoint interface exists, the
bridge does not return the safe default 0.5 nor no-op: it falls back to
the default endpoint, so get returns the endpoint's level (here 0.8) and
set changes the endpoint's level (here to 0.3) — observable state beyond
the pid/handle cache. -/
theorem c6_counterexample :
    (get_volume ⟨some 7, false, [], true, 4/5, false⟩ ⟨true, none, none⟩).1 = 4/5 ∧
    (4/5 : ℚ) ≠ 1/2 ∧
    (set_volume ⟨some 7, false, [], true, 4/5, false⟩ ⟨true, none, none⟩
        (3/10)).1.endpointVolume = 3/10 ∧
    (3/10 : ℚ) ≠ 4/5 := by
  have hap : activePid ⟨some 7, false, [], true, 4/5, false⟩ = some 7 := rfl
  have hr := resolveIfChanged_diff (World.mk (some 7) false [] true (4/5) false)
    ⟨true, none, none⟩ 7 (by simp)
  refine ⟨?_, by norm_num, ?_, by norm_num⟩
  · rw [get_volume_fst ⟨true, none, none⟩ hap, hr]
    simp [get_volume_control_for_app, getEndpointVolume]
  · rw [set_volume_fst ⟨true, none, none⟩ (3/10) hap, hr]
    simp [get_volume_control_for_app, setEndpointVolume]
    rw [clamp01_of_mem] <;> norm_num

/-- C6 (amended): OS-API failures never propagate, but the recovery
differs by failure site.  No determinable foreground pid: get returns 0.5
and set/toggle are total no-ops.  Session enumeration failing: treated
like "no session found" — the operation falls back to the default
endpoint (set sets it, get reads it) instead of no-op/0.5.  The volume
interface call itself failing (endpoint dead, or a dangling session
handle): get returns 0.5 and set/toggle leave the world unchanged, only
the pid/handle cache having been updated. -/
theorem c6_amended (w : World) (c : AudioController) (p i : Nat) (v : ℚ) :
    (activePid w = none →
      get_volume w c = (1/2, c, false) ∧
      set_volume w c v = (w, c, false) ∧
      toggle_mute w c = (w, c, false)) ∧
    (activePid w = some p → c.current_pid ≠ some p → w.sessionsOk = false →
      c.volume_interface = true →
      (get_volume w c).1 = getEndpointVolume w ∧
      (set_volume w c v).1 = setEndpointVolume w (clamp01 v) ∧
      (toggle_mute w c).1 = toggleEndpointMute w) ∧
    (activePid w = some p → c.current_pid = some p →
      c.current_volume_control = none → w.endpointOk = false →
      (get_volume w c).1 = 1/2 ∧
      (set_volume w c v).1 = w ∧
      (toggle_mute w c).1 = w) ∧
    (activePid w = some p → c.current_pid = some p →
      c.current_volume_control = some i → w.sessions[i]? = none →
      (get_volume w c).1 = 1/2 ∧
      (set_volume w c v).1 = w ∧
      (toggle_mute w c).1 = w) := by
  refine ⟨fun hap => ?_, fun hap hne hso hv => ?_, fun hap heq hc he => ?_,
    fun hap heq hc hs => ?_⟩
  · exact ⟨get_volume_none c hap, set_volume_none c v hap, toggle_mute_none c hap⟩
  · have hr := resolveIfChanged_diff w c p hne
    have hres : get_volume_control_for_app w p = none := by
      simp [get_volume_control_for_app, hso]
    refine ⟨?_, ?_, ?_⟩
    · rw [get_volume_fst c hap, hr]
      simp [hres, hv]
    · rw [set_volume_fst c v hap, hr]
      simp [hres, hv]
    · rw [toggle_mute_fst c hap, hr]
      simp [hres, hv]
  · have hr := resolveIfChanged_same w c p heq
    refine ⟨?_, ?_, ?_⟩
    · rw [get_volume_fst c hap, hr]
      simp [hc]
      by_cases hv : c.volume_interface <;> simp [hv, getEndpointVolume, he]
    · rw [set_volume_fst c v hap, hr]
      simp [hc]
      by_cases hv : c.volume_interface <;> simp [hv, setEndpointVolume, he]
    · rw [toggle_mute_fst c hap, hr]
      simp [hc]
      by_cases hv : c.volume_interface <;> simp [hv, toggleEndpointMute, he]
  · have hr := resolveIfChanged_same w c p heq
    refine ⟨?_, ?_, ?_⟩
    · rw [get_volume_fst c hap, hr]
      simp [hc, sessionVolume?, hs]
    · rw [set_volume_fst c v hap, hr]
      simp [hc, setSessionVolume, hs]
    · rw [toggle_mute_fst c hap, hr]
      simp [hc, toggleSessionMute, hs]

/-- C6 witness: the amended theorem's enumeration-failure case at a
concrete world — get falls back to the default endpoint's level. -/
theorem c6_witness :
    (activePid ⟨some 7, false, [], true, 4/5, false⟩ = some 7 ∧
      (AudioController.mk true none none).current_pid ≠ some 7 ∧
      (World.mk (some 7) false [] true (4/5) false).sessionsOk = false ∧
      (AudioController.mk true none none).volume_interface = true) ∧
    (get_volume ⟨some 7, false, [], true, 4/5, false⟩ ⟨true, none, none⟩).1
      = getEndpointVolume ⟨some 7, false, [], true, 4/5, false⟩ := by
  have h := (c6_amended ⟨some 7, false, [], true, 4/5, false⟩ ⟨true, none, none⟩
    7 0 (3/10)).2.1 rfl (by decide) rfl rfl
  exact ⟨⟨rfl, by decide, rfl, rfl⟩, h.1⟩

/-- C7: toggling mute twice through the bridge, with the foreground
process unchanged in between (the model's world keeps its foreground pid;
the first toggle never changes it), restores the whole world — in
particular every session's and the default endpoint's mute state — to its
original value, whatever the pid, the cache, and the initial mute states
were. -/
theorem c7_toggle_toggle (w : World) (c : AudioController) :
    (toggle_mute (toggle_mute w c).1 (toggle_mute w c).2.1).1 = w := by
  cases hap : activePid w with
  | none =>
    rw [toggle_mute_none c hap]
    rw [toggle_mute_none c hap]
  | some p =>
    have hrpid := resolveIfChanged_fst_pid w c p
    rw [toggle_mute_snd c hap]
    cases hc : (resolveIfChanged w c p).1.current_volume_control with
    | some i =>
      have h1 : (toggle_mute w c).1 = toggleSessionMute w i := by
        rw [toggle_mute_fst c hap]
        simp [hc]
      rw [h1]
      have hap2 : activePid (toggleSessionMute w i) = some p := by
        rw [activePid_toggleSessionMute, hap]
      have h2 : (toggle_mute (toggleSessionMute w i) (resolveIfChanged w c p).1).1 =
          toggleSessionMute (toggleSessionMute w i) i := by
        rw [toggle_mute_fst _ hap2, resolveIfChanged_same _ _ _ hrpid]
        simp [hc]
      rw [h2, toggleSessionMute_involutive]
    | none =>
      by_cases hv : (resolveIfChanged w c p).1.volume_interface
      · have h1 : (toggle_mute w c).1 = toggleEndpointMute w := by
          rw [toggle_mute_fst c hap]
          simp [hc, hv]
        rw [h1]
        have hap2 : activePid (toggleEndpointMute w) = some p := by
          rw [activePid_toggleEndpointMute, hap]
        have h2 : (toggle_mute (toggleEndpointMute w) (resolveIfChanged w c p).1).1 =
            toggleEndpointMute (toggleEndpointMute w) := by
          rw [toggle_mute_fst _ hap2, resolveIfChanged_same _ _ _ hrpid]
          simp [hc, hv]
        rw [h2, toggleEndpointMute_involutive]
      · have h1 : (toggle_mute w c).1 = w := by
          rw [toggle_mute_fst c hap]
          simp [hc, hv]
        rw [h1]
        rw [toggle_mute_fst _ hap, resolveIfChanged_same _ _ _ hrpid]
        simp [hc, hv]

/-- C10: once the cache holds `(p, None)` — resolution found no
per-process session for `p` — every further get/set/toggle while `p`
stays foreground leaves the controller untouched, performs no session
scan (flag `false`), and operates on the system default endpoint; this
holds for every session list, in particular one in which a matching
session has meanwhile appeared. -/
theorem c10_cached_none (w : World) (c : AudioController) (p : Nat) (v : ℚ)
    (hap : activePid w = some p) (hpid : c.current_pid = some p)
    (hnone : c.current_volume_control = none) :
    get_volume w c =
      ((if c.volume_interface then getEndpointVolume w else 1/2), c, false) ∧
    set_volume w c v =
      ((if c.volume_interface then setEndpointVolume w (clamp01 v) else w), c, false) ∧
    toggle_mute w c =
      ((if c.volume_interface then toggleEndpointMute w else w), c, false) := by
  by_cases hv : c.volume_interface
  · simp only [hv, if_true]
    exact ⟨get_volume_endpoint hap hpid hnone hv,
      set_volume_endpoint v hap hpid hnone hv,
      toggle_mute_endpoint hap hpid hnone hv⟩
  · have hr := resolveIfChanged_same w c p hpid
    refine ⟨?_, ?_, ?_⟩ <;>
      simp [get_volume, set_volume, toggle_mute, hap, hr, hnone, hv]

/-- C10 witness: with a cached `(7, None)` and a matching session now
present in the session list, get still reads the default endpoint and
performs no scan. -/
theorem c10_witness :
    (activePid ⟨some 7, true, [⟨true, 7, 1/4, false⟩], true, 3/5, false⟩ = some 7 ∧
      (AudioController.mk true (some 7) none).current_pid = some 7 ∧
      (AudioController.mk true (some 7) none).current_volume_control = none) ∧
    get_volume ⟨some 7, true, [⟨true, 7, 1/4, false⟩], true, 3/5, false⟩
        ⟨true, some 7, none⟩
      = ((if (AudioController.mk true (some 7) none).volume_interface then
            getEndpointVolume ⟨some 7, true, [⟨true, 7, 1/4, false⟩], true, 3/5, false⟩
          else 1/2), ⟨true, some 7, none⟩, false) := by
  have h := c10_cached_none ⟨some 7, true, [⟨true, 7, 1/4, false⟩], true, 3/5, false⟩
    ⟨true, some 7, none⟩ 7 0 rfl rfl rfl
  exact ⟨⟨rfl, rfl, rfl⟩, h.1⟩

/-- C8: after `show_overlay` resolves its timeout to `T ≥ 1` ms, the
panel is visible and stays visible for every instant strictly before `T`,
becomes hidden exactly at `T` with the single-shot timer gone inactive,
and a `show_overlay` issued after any earlier `show_overlay` leaves
exactly the state of a single fresh `show_overlay` — the earlier timer is
restarted, never stacked, so the panel cannot hide before the most recent
show's timeout. -/
theorem c8_overlay_timer (cfg : Nat) (o : Overlay) (t : Option Nat) (T : Nat)
    (hT : t.getD cfg = T) (h1 : 1 ≤ T) :
    (show_overlay cfg o t).visible = true ∧
    (∀ k, k < T → (tick^[k] (show_overlay cfg o t)).visible = true) ∧
    tick^[T] (show_overlay cfg o t) = ⟨false, none⟩ ∧
    (∀ o' t', show_overlay cfg (show_overlay cfg o' t') t = show_overlay cfg o t) := by
  have hs : show_overlay cfg o t = ⟨true, some T⟩ := by
    simp [show_overlay, hT]
  refine ⟨by rw [hs], fun k hk => by rw [hs, tick_iterate_lt hk], ?_,
    fun o' t' => by simp [show_overlay]⟩
  rw [hs]
  obtain ⟨T', rfl⟩ : ∃ T', T = T' + 1 := ⟨T - 1, by omega⟩
  rw [Function.iterate_succ_apply']
  cases T' with
  | zero => simp [tick]
  | succ n =>
    rw [tick_iterate_lt (by omega)]
    have h2 : n + 1 + 1 - (n + 1) = 1 := by omega
    rw [h2]
    simp [tick]

/-- C8 witness: showing with an explicit 3 ms timeout hides the panel at
tick 3 and deactivates the timer. -/
theorem c8_witness :
    ((some 3 : Option Nat).getD 2000 = 3 ∧ 1 ≤ 3) ∧
    tick^[3] (show_overlay 2000 ⟨false, none⟩ (some 3)) = ⟨false, none⟩ := by
  have h := c8_overlay_timer 2000 ⟨false, none⟩ (some 3) 3 rfl (by decide)
  exact ⟨⟨rfl, by decide⟩, h.2.2.1⟩

/-- C9, counterexample: the volume-up hotkey callback performs its
audio-session calls directly on the listener thread — `set_volume` is
invoked with direct dispatch, not through `QTimer.singleShot(0, ...)` —
contradicting the claim that every such side effect is marshaled onto the
UI thread. -/
theorem c9_counterexample :
    CallSite.mk Dispatch.direct Effect.audioSetVolume ∈ volume_up_calls ∧
    isAudioCall Effect.audioSetVolume = true ∧
    Dispatch.direct ≠ Dispatch.deferredZero := by
  refine ⟨?_, rfl, by decide⟩
  decide

/-- C9 (amended): in the four action callbacks, every UI mutation (the
overlay show) is deferred to the UI thread with a zero-delay
`QTimer.singleShot`, while every audio-session call (and the key
injection) executes directly on the listener thread. -/
theorem c9_dispatch :
    (actionCallbacks.all fun calls =>
      calls.all fun cs =>
        !(isUiMutation cs.effect) || (cs.dispatch == Dispatch.deferredZero)) = true ∧
    (actionCallbacks.all fun calls =>
      calls.all fun cs =>
        !(isAudioCall cs.effect) || (cs.dispatch == Dispatch.direct)) = true := by
  decide

/-- C2 witness: the amended theorem at a session whose stored level is 0. -/
theorem c2_witness :
    (stableTarget ⟨some 5, true, [⟨true, 5, 0, false⟩], true, 1/2, false⟩
        ⟨true, some 5, some 0⟩ 5 0 ∧
      (World.mk (some 5) true [⟨true, 5, 0, false⟩] true (1/2) false).sessions[0]?
        = some ⟨true, 5, 0, false⟩ ∧
      (Session.mk true 5 0 false).volume = ((0 : ℤ) : ℚ) / 100 ∧
      0 ≤ (Session.mk true 5 0 false).volume ∧ (Session.mk true 5 0 false).volume ≤ 1) ∧
    (volume_up ⟨some 5, true, [⟨true, 5, 0, false⟩], true, 1/2, false⟩
        ⟨true, some 5, some 0⟩).1.sessions[0]?
      = some { Session.mk true 5 0 false with
          volume := min 1 ((Session.mk true 5 0 false).volume + 1/20) } :=
  ⟨⟨⟨rfl, rfl, rfl, by simp⟩, rfl, by norm_num, le_refl 0, zero_le_one⟩,
    (c2_volume_step ⟨some 5, true, [⟨true, 5, 0, false⟩], true, 1/2, false⟩
      ⟨true, some 5, some 0⟩ 5 0 ⟨true, 5, 0, false⟩ 0
      ⟨rfl, rfl, rfl, by simp⟩ rfl (by norm_num) (le_refl 0) zero_le_one).1⟩

end SoundMixer
